import Mathlib

/-!
# Verification of the groundwater detection-power worked-example notebook

This development shallowly embeds the behaviour exercised by the notebook
`increasing_run_efficency.ipynb`.  The notebook itself is glue code over the
external `komanawa.gw_detect_power` library; the library's implementation is
not part of the repository, so the operations the notebook calls
(`time_test_power_calc_itter`, `mulitprocess_power_calcs`, `efficent_mode`,
`set_condensed_mode`) are modelled from the specification's description of
their contracts, together with the concrete outputs recorded in the notebook
cells.  The notebook's own result-inspection cell (pandas `notna`/`isna`
masking) is embedded directly.
-/

namespace GwDetect

/-- Modelled from the spec: the per-run inputs of the library's `power_calc` —
a vector of numeric parameter values (error, concentrations, slopes,
residence-time parameters, ...) together with an integer random seed. -/
structure RunParams where
  nums : List Rat
  seed : Nat
deriving DecidableEq, Repr

/-- Modelled from the spec: a row of the results table returned by the batch
dispatch — the user-supplied run identifier, the computed detection power
(absent when the run failed), and the `python_error` column holding the
serialized traceback text when the run raised (None otherwise). -/
structure ResultRow where
  idv : String
  power : Option Rat
  python_error : Option String
deriving DecidableEq, Repr

/-- Modelled from the spec: a parameter of the batch method is passed either
as a single scalar value or as an array of per-run values. -/
inductive ParamVal (α : Type) where
  | scalar (v : α)
  | perRun (vs : List α)
deriving DecidableEq, Repr

/-- Expansion of a batch parameter to one value per run: a scalar is broadcast
to all `n` runs, an array is taken as given. -/
def ParamVal.expand (n : Nat) : ParamVal α → List α
  | .scalar v => List.replicate n v
  | .perRun vs => vs

/-- Modelled from the spec: the calculator object built from keyword
arguments.  `sim` abstracts the external Monte Carlo power-calculation
engine (fallible: an exception is an `Except.error` carrying the traceback
text); `true_ts_passes` abstracts the detection test applied to the
noiseless (true) timeseries, used by efficient mode. -/
structure Calculator where
  nsims : Nat
  ncores : Nat
  efficent_mode : Bool
  condensed : Option (List Int)
  sim : RunParams → Except String Rat
  true_ts_passes : RunParams → Bool

/-- Modelled from the spec: the condensed-mode setter — records one rounding
precision per numeric parameter on the calculator. -/
def set_condensed_mode (c : Calculator) (pers : List Int) : Calculator :=
  { c with condensed := some pers }

/-- Modelled from the spec: a single power calculation.  With
`efficent_mode` on, when the noiseless timeseries already fails the
detection test the call short-circuits to a zero-power result without
running any of the `nsims` noisy Monte Carlo simulations; the second
component counts the simulations actually run. -/
def power_calc (c : Calculator) (p : RunParams) : Except String (Rat × Nat) :=
  if c.efficent_mode && !(c.true_ts_passes p) then .ok (0, 0)
  else (c.sim p).map (fun v => (v, c.nsims))

/-- The power value alone of a single power calculation. -/
def power_calc1 (c : Calculator) (p : RunParams) : Except String Rat :=
  (power_calc c p).map Prod.fst

/-- Modelled from the spec: the worker-side wrapper around `power_calc` used
by the multiprocessing dispatch — a raised exception is captured as the
serialized traceback text instead of propagating, and stored for the
`python_error` column. -/
def powerCalcMp (f : RunParams → Except String Rat) (p : RunParams) :
    Option Rat × Option String :=
  match f p with
  | .ok v => (some v, none)
  | .error tb => (none, some tb)

/-- Modelled from the spec: the arguments of `mulitprocess_power_calcs` — the
user-supplied run identifiers `idv_vals`, one `ParamVal` per numeric
parameter (each either a scalar broadcast to all runs or a per-run array),
and the per-run seeds `seed_vals`. -/
structure BatchArgs where
  idv_vals : List String
  num_vals : List (ParamVal Rat)
  seed_vals : ParamVal Nat
deriving Repr

/-- Number of runs of a batch: one per supplied identifier. -/
def BatchArgs.n (args : BatchArgs) : Nat := args.idv_vals.length

/-- Modelled from the spec: the batch call's input check — every per-run
array must supply exactly one value per run identifier (the library asserts
this before dispatching). -/
def argsOk (args : BatchArgs) : Bool :=
  args.num_vals.all (fun pv => (pv.expand args.n).length == args.n) &&
    ((args.seed_vals.expand args.n).length == args.n)

/-- The per-run parameters of run `i` of a batch, gathered from the expanded
parameter arrays. -/
def buildParams (args : BatchArgs) (i : Nat) : RunParams :=
  { nums := args.num_vals.map (fun pv => (pv.expand args.n).getD i 0),
    seed := (args.seed_vals.expand args.n).getD i 0 }

/-- The list of all per-run parameter records of a batch, in run order. -/
def runsOf (args : BatchArgs) : List RunParams :=
  (List.range args.n).map (buildParams args)

/-- Modelled from the spec: rounding a value to `per` decimal places, as used
by condensed mode. -/
def roundTo (per : Int) (x : Rat) : Rat :=
  (round (x * (10 : Rat) ^ per) : Int) / (10 : Rat) ^ per

/-- The condensed-mode grouping key of a run: its numeric inputs rounded at
the per-parameter precisions. -/
def condensedKey (pers : List Int) (nums : List Rat) : List Rat :=
  List.zipWith roundTo pers nums

/-- Modelled from the spec: the condensed-mode memo table — one entry per
distinct set of rounded inputs, holding the (captured) result of the single
power calculation run on the first batch run with that rounded key. -/
def condensedMemo (f : RunParams → Except String Rat) (pers : List Int)
    (runs : List RunParams) : List (List Rat × (Option Rat × Option String)) :=
  ((runs.map (fun p => condensedKey pers p.nums)).dedup).map
    (fun k =>
      (k, match runs.find? (fun p => condensedKey pers p.nums == k) with
          | some q => powerCalcMp f q
          | none => (none, none)))

/-- The per-run (power, python_error) values of a condensed-mode batch: each
run looks its rounded key up in the memo table, so nearby scenarios share one
simulation result. -/
def condensedRowVals (f : RunParams → Except String Rat) (pers : List Int)
    (runs : List RunParams) : List (Option Rat × Option String) :=
  runs.map (fun p =>
    ((condensedMemo f pers runs).lookup (condensedKey pers p.nums)).getD (none, none))

/-- The per-run (power, python_error) values of a batch: one independent
worker call per run in normal mode, the shared memo in condensed mode. -/
def rowVals (c : Calculator) (runs : List RunParams) :
    List (Option Rat × Option String) :=
  match c.condensed with
  | none => runs.map (powerCalcMp (power_calc1 c))
  | some pers => condensedRowVals (power_calc1 c) pers runs

/-- The results table assembled by the batch dispatch: the per-run values
keyed positionally by the user-supplied identifiers. -/
def batchTable (c : Calculator) (args : BatchArgs) : List ResultRow :=
  List.zipWith (fun idv v => ⟨idv, v.1, v.2⟩)
    args.idv_vals (rowVals c (runsOf args))

/-- Modelled from the spec: `mulitprocess_power_calcs` — dispatches one power
calculation per supplied identifier, captures each worker's failure in the
`python_error` column instead of propagating, returns the results table
keyed by the identifiers, and writes an output file only when `outpath` is
supplied (the second component lists the files written). -/
def mulitprocess_power_calcs (c : Calculator) (outpath : Option String)
    (args : BatchArgs) : Except String (List ResultRow × List String) :=
  if argsOk args then
    .ok (batchTable c args,
         match outpath with
         | none => []
         | some f => [f])
  else .error "expected one value per run for every array-valued parameter"

/-- Modelled from the spec and the notebook's recorded outputs:
`time_test_power_calc_itter` — runs `testnitter` iterations of the power
calculation, measures the elapsed wall-clock seconds, and reports the time
per iteration together with the estimated total runtime for the configured
`nsims` iterations.  The two recorded notebook outputs fix the estimate as
`elapsed / testnitter * nsims / 60` (the printed number is minutes, although
the printed label says seconds). -/
def time_test_power_calc_itter (nsims testnitter : Nat) (elapsed : Rat) :
    Rat × Rat :=
  let per_iter := elapsed / testnitter
  (per_iter, per_iter * nsims / 60)

/-- The per-iteration time recorded by the notebook's slope-calculator timing
cell (`testnitter = 5`, `nsims = 1000`). -/
def recordedSlopePerIter : Rat := 0.8093305587768554

/-- The estimated total runtime printed by the notebook's slope-calculator
timing cell, labelled seconds. -/
def recordedSlopeEstTotal : Rat := 13.488842646280924

/-- The per-iteration time recorded by the notebook's counterfactual timing
cell (`testnitter = 5`, `nsims = 1000`). -/
def recordedCounterPerIter : Rat := 0.18702340126037598

/-- The estimated total runtime printed by the notebook's counterfactual
timing cell, labelled seconds. -/
def recordedCounterEstTotal : Rat := 3.117056687672933

/-! ## The notebook's error-inspection cell

The cell `print(outdata['python_error'].notna().sum(), 'errors')` followed by
the loop over `zip(outdata.index[~outdata['python_error'].isna()],
outdata['python_error'][~outdata['python_error'].isna()])` is embedded with
the pandas `notna`/`isna` semantics on an `Option`-valued column. -/

/-- pandas `notna` on one entry of the `python_error` column. -/
def notna (x : Option String) : Bool := x.isSome

/-- pandas `isna` on one entry of the `python_error` column. -/
def isna (x : Option String) : Bool := x.isNone

/-- `outdata['python_error'].notna().sum()` — the printed error count. -/
def notnaSum (col : List (Option String)) : Nat := (col.filter notna).length

/-- pandas boolean-mask selection `series[mask]`. -/
def maskSelect (mask : List Bool) (xs : List α) : List α :=
  ((xs.zip mask).filter (fun p => p.2)).map Prod.fst

/-- The `(identifier, error)` pairs visited by the notebook's printing loop:
`zip` of the index and the column, each selected by the `~isna` mask. -/
def errorLoopPairs (idx : List String) (col : List (Option String)) :
    List (String × Option String) :=
  (maskSelect (col.map (fun x => !(isna x))) idx).zip
    (maskSelect (col.map (fun x => !(isna x))) col)

/-- The run identifiers of the notebook's recorded 6-run batch. -/
def notebookIndex : List String :=
  ["run_0", "run_1", "run_2", "run_3", "run_4", "run_5"]

/-- The `python_error` column of the notebook's recorded 6-run batch: `run_0`
raised (`nsamples` too small), the other five runs succeeded. -/
def notebookErrors : List (Option String) :=
  [some "ValueError: nsamples must be greater than 10",
   none, none, none, none, none]

/-! ## Helper lemmas -/

lemma length_runsOf (args : BatchArgs) : (runsOf args).length = args.n := by
  simp [runsOf]

lemma length_rowVals (c : Calculator) (runs : List RunParams) :
    (rowVals c runs).length = runs.length := by
  rcases h : c.condensed with _ | pers <;> simp [rowVals, h, condensedRowVals]

lemma length_batchTable (c : Calculator) (args : BatchArgs) :
    (batchTable c args).length = args.idv_vals.length := by
  simp [batchTable, List.length_zipWith, length_rowVals, length_runsOf, BatchArgs.n]

lemma map_idv_zipWith (idv : List String) :
    ∀ vals : List (Option Rat × Option String), idv.length ≤ vals.length →
      (List.zipWith (fun i v => ResultRow.mk i v.1 v.2) idv vals).map ResultRow.idv
        = idv := by
  induction idv with
  | nil => intro vals _; rfl
  | cons i idv ih =>
      intro vals h
      cases vals with
      | nil => simp at h
      | cons v vals => simpa using ih vals (by simpa using h)

lemma rowVals_getElem_none (c : Calculator) (hc : c.condensed = none)
    (runs : List RunParams) (i : Nat) (hi : i < runs.length) :
    (rowVals c runs).getD i (none, none)
      = powerCalcMp (power_calc1 c) (runs.getD i ⟨[], 0⟩) := by
  have h1 : i < (rowVals c runs).length := by rw [length_rowVals]; exact hi
  rw [List.getD_eq_getElem _ _ h1, List.getD_eq_getElem _ _ hi]
  simp only [rowVals, hc] at h1 ⊢
  rw [List.getElem_map]

lemma runsOf_getD (args : BatchArgs) (i : Nat) (hi : i < args.n) :
    (runsOf args).getD i ⟨[], 0⟩ = buildParams args i := by
  have h1 : i < (runsOf args).length := by rw [length_runsOf]; exact hi
  rw [List.getD_eq_getElem _ _ h1]
  simp only [runsOf]
  rw [List.getElem_map]
  congr 1
  exact List.getElem_range _ _

lemma batchTable_getD (c : Calculator) (args : BatchArgs) (i : Nat)
    (hi : i < args.n) :
    (batchTable c args).getD i ⟨"", none, none⟩
      = ⟨args.idv_vals.getD i "",
         ((rowVals c (runsOf args)).getD i (none, none)).1,
         ((rowVals c (runsOf args)).getD i (none, none)).2⟩ := by
  have hidv : i < args.idv_vals.length := hi
  have htab : i < (batchTable c args).length := by
    rw [length_batchTable]; exact hi
  have hrow : i < (rowVals c (runsOf args)).length := by
    rw [length_rowVals, length_runsOf]; exact hi
  rw [List.getD_eq_getElem _ _ htab, List.getD_eq_getElem _ _ hidv,
    List.getD_eq_getElem _ _ hrow]
  simp only [batchTable] at htab ⊢
  rw [List.getElem_zipWith]

lemma batchTable_getD_none (c : Calculator) (args : BatchArgs)
    (hc : c.condensed = none) (i : Nat) (hi : i < args.n) :
    (batchTable c args).getD i ⟨"", none, none⟩
      = ⟨args.idv_vals.getD i "",
         (powerCalcMp (power_calc1 c) (buildParams args i)).1,
         (powerCalcMp (power_calc1 c) (buildParams args i)).2⟩ := by
  rw [batchTable_getD c args i hi,
    rowVals_getElem_none c hc (runsOf args) i (by rw [length_runsOf]; exact hi),
    runsOf_getD args i hi]

lemma rowVals_getElem_condensed (c : Calculator) (pers : List Int)
    (hc : c.condensed = some pers) (runs : List RunParams) (i : Nat)
    (hi : i < runs.length) :
    (rowVals c runs).getD i (none, none)
      = ((condensedMemo (power_calc1 c) pers runs).lookup
          (condensedKey pers (runs.getD i ⟨[], 0⟩).nums)).getD (none, none) := by
  have h1 : i < (rowVals c runs).length := by rw [length_rowVals]; exact hi
  rw [List.getD_eq_getElem _ _ h1, List.getD_eq_getElem _ _ hi]
  simp only [rowVals, hc, condensedRowVals] at h1 ⊢
  rw [List.getElem_map]

lemma all_map_comp (f : α → β) (p : β → Bool) (l : List α) :
    (l.map f).all p = l.all (fun a => p (f a)) := by
  induction l with
  | nil => rfl
  | cons a l ih => simp [ih]

lemma argsOk_eq_of_expand (a₁ a₂ : BatchArgs) (hn : a₁.n = a₂.n)
    (hnum : a₁.num_vals.map (fun pv => pv.expand a₁.n)
      = a₂.num_vals.map (fun pv => pv.expand a₂.n))
    (hseed : a₁.seed_vals.expand a₁.n = a₂.seed_vals.expand a₂.n) :
    argsOk a₁ = argsOk a₂ := by
  simp only [argsOk]
  have e1 : a₁.num_vals.all (fun pv => (pv.expand a₁.n).length == a₁.n)
      = (a₁.num_vals.map (fun pv => pv.expand a₁.n)).all
          (fun e => e.length == a₁.n) :=
    (all_map_comp (fun pv => pv.expand a₁.n) (fun e => e.length == a₁.n)
      a₁.num_vals).symm
  have e2 : a₂.num_vals.all (fun pv => (pv.expand a₂.n).length == a₂.n)
      = (a₂.num_vals.map (fun pv => pv.expand a₂.n)).all
          (fun e => e.length == a₂.n) :=
    (all_map_comp (fun pv => pv.expand a₂.n) (fun e => e.length == a₂.n)
      a₂.num_vals).symm
  rw [e1, e2, hnum, hseed, hn]

lemma buildParams_eq_of_expand (a₁ a₂ : BatchArgs) (hn : a₁.n = a₂.n)
    (hnum : a₁.num_vals.map (fun pv => pv.expand a₁.n)
      = a₂.num_vals.map (fun pv => pv.expand a₂.n))
    (hseed : a₁.seed_vals.expand a₁.n = a₂.seed_vals.expand a₂.n)
    (i : Nat) : buildParams a₁ i = buildParams a₂ i := by
  simp only [buildParams]
  rw [hseed]
  have h1 : a₁.num_vals.map (fun pv => (pv.expand a₁.n).getD i 0)
      = (a₁.num_vals.map (fun pv => pv.expand a₁.n)).map (fun e => e.getD i 0) := by
    rw [List.map_map]; rfl
  have h2 : a₂.num_vals.map (fun pv => (pv.expand a₂.n).getD i 0)
      = (a₂.num_vals.map (fun pv => pv.expand a₂.n)).map (fun e => e.getD i 0) := by
    rw [List.map_map]; rfl
  rw [h1, h2, hnum]

lemma mulitprocess_congr_expand (c : Calculator) (outpath : Option String)
    (a₁ a₂ : BatchArgs) (hidv : a₁.idv_vals = a₂.idv_vals)
    (hnum : a₁.num_vals.map (fun pv => pv.expand a₁.n)
      = a₂.num_vals.map (fun pv => pv.expand a₂.n))
    (hseed : a₁.seed_vals.expand a₁.n = a₂.seed_vals.expand a₂.n) :
    mulitprocess_power_calcs c outpath a₁ = mulitprocess_power_calcs c outpath a₂ := by
  have hn : a₁.n = a₂.n := by simp [BatchArgs.n, hidv]
  have hruns : runsOf a₁ = runsOf a₂ := by
    have hb : buildParams a₁ = buildParams a₂ :=
      funext (buildParams_eq_of_expand a₁ a₂ hn hnum hseed)
    simp only [runsOf, hn, hb]
  simp only [mulitprocess_power_calcs, batchTable,
    argsOk_eq_of_expand a₁ a₂ hn hnum hseed, hruns, hidv]

lemma maskSelect_length (m : List Bool) :
    ∀ xs : List α, xs.length = m.length →
      (maskSelect m xs).length = (m.filter id).length := by
  induction m with
  | nil =>
      intro xs h
      cases xs with
      | nil => rfl
      | cons x xs => simp at h
  | cons b m ih =>
      intro xs h
      cases xs with
      | nil => simp at h
      | cons x xs =>
          have h' : xs.length = m.length := by simpa using h
          cases b with
          | false =>
              simpa [maskSelect, List.zip_cons_cons, List.filter_cons]
                using ih xs h'
          | true =>
              simpa [maskSelect, List.zip_cons_cons, List.filter_cons]
                using ih xs h'

lemma length_filter_map_bool (f : α → Bool) (l : List α) :
    ((l.map f).filter id).length = (l.filter f).length := by
  induction l with
  | nil => rfl
  | cons a l ih => cases h : f a <;> simp [List.filter_cons, h, ih]

/-! ## Concrete instances

Mirroring the notebook's demonstration batch: six runs would be heavy for
kernel evaluation, so a two-run batch is used, with a simulation engine that
raises on the run seeded like the notebook's failing `run_0` and succeeds on
the other run. -/

/-- A concrete simulation engine: raises (as the notebook's `run_0` did) when
the seed is 0, succeeds otherwise. -/
def demoSim : RunParams → Except String Rat := fun p =>
  if p.seed == 0 then .error "ValueError: nsamples must be greater than 10"
  else .ok (1/2)

/-- A concrete calculator in the notebook's multiprocessing configuration. -/
def demoCalc : Calculator :=
  { nsims := 1000, ncores := 3, efficent_mode := false, condensed := none,
    sim := demoSim, true_ts_passes := fun _ => true }

/-- `demoCalc` with a different core count. -/
def demoCalc64 : Calculator := { demoCalc with ncores := 64 }

/-- A concrete two-run batch: run 0 fails (seed 0), run 1 succeeds. -/
def demoArgs : BatchArgs :=
  { idv_vals := ["run_0", "run_1"],
    num_vals := [ParamVal.scalar 0.5, ParamVal.perRun [5, 10]],
    seed_vals := ParamVal.perRun [0, 535] }

/-- A concrete calculator with efficient mode on whose noiseless timeseries
fails the detection test. -/
def effCalc : Calculator :=
  { nsims := 1000, ncores := 3, efficent_mode := true, condensed := none,
    sim := fun _ => .ok 1, true_ts_passes := fun _ => false }

/-- A concrete two-run batch whose numeric inputs (0.52 and 0.50) differ but
round to the same value at 1 decimal place. -/
def condArgs : BatchArgs :=
  { idv_vals := ["a", "b"],
    num_vals := [ParamVal.perRun [0.52, 0.50]],
    seed_vals := ParamVal.perRun [1, 2] }

/-! ## Claims -/

/-- C1: for every run dispatched through `mulitprocess_power_calcs` (in the
notebook's configuration, which does not set condensed mode), the
`python_error` entry of the returned table at that run's position is non-None
iff the run raised inside its worker; when it raised, the entry holds the
serialized traceback text; and the exception never propagates out of the
batch call (the batch returns `.ok` whenever the inputs pass the length
check). -/
theorem python_error_iff_worker_raised (c : Calculator) (outpath : Option String)
    (args : BatchArgs) (hc : c.condensed = none) (hok : argsOk args = true)
    (i : Nat) (hi : i < args.n) :
    ((((batchTable c args).getD i ⟨"", none, none⟩).python_error ≠ none) ↔
      ∃ tb, power_calc1 c (buildParams args i) = .error tb) ∧
    (∀ tb, power_calc1 c (buildParams args i) = .error tb →
      ((batchTable c args).getD i ⟨"", none, none⟩).python_error = some tb) ∧
    ∃ t, mulitprocess_power_calcs c outpath args = .ok t := by
  rw [batchTable_getD_none c args hc i hi]
  refine ⟨?_, ?_, ?_⟩
  · cases h : power_calc1 c (buildParams args i) <;> simp [powerCalcMp, h]
  · intro tb h
    simp [powerCalcMp, h]
  · refine ⟨(batchTable c args,
      match outpath with | none => [] | some f => [f]), ?_⟩
    simp [mulitprocess_power_calcs, hok]

/-- Witness for C1 on the concrete two-run batch: run 0 raises and run 0's
`python_error` holds the traceback text. -/
theorem python_error_iff_worker_raised_witness :
    demoCalc.condensed = none ∧ argsOk demoArgs = true ∧ 0 < demoArgs.n ∧
    (((((batchTable demoCalc demoArgs).getD 0 ⟨"", none, none⟩).python_error ≠ none) ↔
       ∃ tb, power_calc1 demoCalc (buildParams demoArgs 0) = .error tb) ∧
     (∀ tb, power_calc1 demoCalc (buildParams demoArgs 0) = .error tb →
       ((batchTable demoCalc demoArgs).getD 0 ⟨"", none, none⟩).python_error = some tb) ∧
     ∃ t, mulitprocess_power_calcs demoCalc none demoArgs = .ok t) :=
  ⟨rfl, by decide, by decide,
    python_error_iff_worker_raised demoCalc none demoArgs rfl (by decide) 0 (by decide)⟩

/-- C2: if one run of a batch raises, every other run still contributes its
own row: the table has one row per identifier, and the row at any position
`j` is computed from run `j`'s own parameters alone, so a failing run `i`
never halts or alters a sibling run `j`. -/
theorem failing_run_does_not_halt_siblings (c : Calculator) (args : BatchArgs)
    (hc : c.condensed = none) (i : Nat) (hi : i < args.n) (tb : String)
    (hfail : power_calc1 c (buildParams args i) = .error tb)
    (j : Nat) (hj : j < args.n) :
    (batchTable c args).length = args.n ∧
    (batchTable c args).getD j ⟨"", none, none⟩
      = ⟨args.idv_vals.getD j "",
         (powerCalcMp (power_calc1 c) (buildParams args j)).1,
         (powerCalcMp (power_calc1 c) (buildParams args j)).2⟩ :=
  ⟨length_batchTable c args, batchTable_getD_none c args hc j hj⟩

/-- Witness for C2: run 0 of the concrete batch raises, yet run 1's row is
present and computed from run 1's own parameters. -/
theorem failing_run_does_not_halt_siblings_witness :
    demoCalc.condensed = none ∧ 0 < demoArgs.n ∧
    power_calc1 demoCalc (buildParams demoArgs 0)
      = .error "ValueError: nsamples must be greater than 10" ∧ 1 < demoArgs.n ∧
    ((batchTable demoCalc demoArgs).length = demoArgs.n ∧
     (batchTable demoCalc demoArgs).getD 1 ⟨"", none, none⟩
       = ⟨demoArgs.idv_vals.getD 1 "",
          (powerCalcMp (power_calc1 demoCalc) (buildParams demoArgs 1)).1,
          (powerCalcMp (power_calc1 demoCalc) (buildParams demoArgs 1)).2⟩) :=
  ⟨rfl, by decide, rfl, by decide,
    failing_run_does_not_halt_siblings demoCalc demoArgs rfl 0 (by decide) _
      rfl 1 (by decide)⟩

/-- C3: the claim says the estimated total runtime printed by
`time_test_power_calc_itter` equals the measured per-iteration time times
`nsims`, in seconds.  The notebook's recorded outputs show the code instead
prints per-iteration time times `nsims` divided by 60 (minutes) while
labelling it seconds: at the recorded slope-calculator run the per-iteration
time is reproduced exactly, the printed estimate times 60 equals
per-iteration x nsims, the printed estimate itself does not, and the model
reproduces both recorded estimates (to float precision for the first, exactly
for the second). -/
theorem time_test_estimate_unit_bug :
    (time_test_power_calc_itter 1000 5 (5 * recordedSlopePerIter)).1
      = recordedSlopePerIter ∧
    (time_test_power_calc_itter 1000 5 (5 * recordedSlopePerIter)).2 * 60
      = recordedSlopePerIter * 1000 ∧
    (time_test_power_calc_itter 1000 5 (5 * recordedSlopePerIter)).2
      ≠ recordedSlopePerIter * 1000 ∧
    |(time_test_power_calc_itter 1000 5 (5 * recordedSlopePerIter)).2
      - recordedSlopeEstTotal| < 1 / 10 ^ 13 ∧
    (time_test_power_calc_itter 1000 5 (5 * recordedCounterPerIter)).2
      = recordedCounterEstTotal := by
  refine ⟨?_, ?_, ?_, ?_, ?_⟩
  · simp only [time_test_power_calc_itter, recordedSlopePerIter]
    norm_num
  · simp only [time_test_power_calc_itter, recordedSlopePerIter]
    norm_num
  · simp only [time_test_power_calc_itter, recordedSlopePerIter]
    norm_num
  · simp only [time_test_power_calc_itter, recordedSlopePerIter,
      recordedSlopeEstTotal]
    rw [abs_sub_lt_iff]
    constructor <;> norm_num
  · simp only [time_test_power_calc_itter, recordedCounterPerIter,
      recordedCounterEstTotal]
    norm_num

/-- C4: for every parameter of the batch method, passing a single scalar
value yields the same results table as passing an array holding that value
once per run — both for the numeric parameters (at any position among them)
and for the seeds. -/
theorem scalar_param_broadcasts_to_all_runs (c : Calculator)
    (outpath : Option String) (idv : List String) (pre suf : List (ParamVal Rat))
    (v : Rat) (sv : ParamVal Nat) (nums : List (ParamVal Rat)) (w : Nat) :
    mulitprocess_power_calcs c outpath
        ⟨idv, pre ++ ParamVal.scalar v :: suf, sv⟩
      = mulitprocess_power_calcs c outpath
        ⟨idv, pre ++ ParamVal.perRun (List.replicate idv.length v) :: suf, sv⟩ ∧
    mulitprocess_power_calcs c outpath ⟨idv, nums, ParamVal.scalar w⟩
      = mulitprocess_power_calcs c outpath
        ⟨idv, nums, ParamVal.perRun (List.replicate idv.length w)⟩ := by
  constructor
  · refine mulitprocess_congr_expand c outpath _ _ rfl ?_ rfl
    simp only [List.map_append, List.map_cons]
    rfl
  · exact mulitprocess_congr_expand c outpath _ _ rfl rfl rfl

/-- C5: for every batch of `n` run identifiers supplied as `idv_vals`, the
table returned by `mulitprocess_power_calcs` is keyed by exactly those
identifiers, in order, and has exactly `n` rows.  The calculator (and hence
its simulation engine, which may fail on any run) is universally quantified,
so this holds whether or not individual runs failed. -/
theorem table_keyed_by_idv_one_row_per_run (c : Calculator)
    (outpath : Option String) (args : BatchArgs) (hok : argsOk args = true) :
    (∃ files, mulitprocess_power_calcs c outpath args
      = .ok (batchTable c args, files)) ∧
    (batchTable c args).map ResultRow.idv = args.idv_vals ∧
    (batchTable c args).length = args.idv_vals.length := by
  refine ⟨⟨(match outpath with | none => [] | some f => [f]), ?_⟩, ?_,
    length_batchTable c args⟩
  · simp [mulitprocess_power_calcs, hok]
  · exact map_idv_zipWith args.idv_vals _
      (by rw [length_rowVals, length_runsOf]; exact Nat.le_refl _)

/-- Witness for C5 on the concrete two-run batch (in which run 0 fails). -/
theorem table_keyed_by_idv_one_row_per_run_witness :
    argsOk demoArgs = true ∧
    ((∃ files, mulitprocess_power_calcs demoCalc none demoArgs
        = .ok (batchTable demoCalc demoArgs, files)) ∧
     (batchTable demoCalc demoArgs).map ResultRow.idv = demoArgs.idv_vals ∧
     (batchTable demoCalc demoArgs).length = demoArgs.idv_vals.length) :=
  ⟨by decide, table_keyed_by_idv_one_row_per_run demoCalc none demoArgs (by decide)⟩

/-- C6: with `efficent_mode` on, a power calculation whose noiseless (true)
timeseries fails the detection test returns a detection power of zero and
runs zero of the `nsims` noisy Monte Carlo simulations. -/
theorem efficent_mode_zero_power_short_circuit (c : Calculator) (p : RunParams)
    (he : c.efficent_mode = true) (ht : c.true_ts_passes p = false) :
    power_calc c p = .ok (0, 0) := by
  simp [power_calc, he, ht]

/-- Witness for C6 on a concrete efficient-mode calculator whose noiseless
timeseries fails the test. -/
theorem efficent_mode_zero_power_short_circuit_witness :
    effCalc.efficent_mode = true ∧
    effCalc.true_ts_passes ⟨[10, 5], 42⟩ = false ∧
    power_calc effCalc ⟨[10, 5], 42⟩ = .ok (0, 0) :=
  ⟨rfl, rfl, efficent_mode_zero_power_short_circuit effCalc ⟨[10, 5], 42⟩ rfl rfl⟩

/-- C7: after `set_condensed_mode` fixes a rounding precision per numeric
parameter, a batch runs the power calculation once per distinct set of
rounded inputs — the memo table has exactly one entry per distinct rounded
key, and every row only looks its key up in that memo — so any two runs
whose numeric inputs round to the same values receive the same power and
the same error entry. -/
theorem condensed_mode_one_calc_per_rounded_key (c : Calculator)
    (pers : List Int) (args : BatchArgs) (i j : Nat)
    (hi : i < args.n) (hj : j < args.n)
    (hkey : condensedKey pers (buildParams args i).nums
      = condensedKey pers (buildParams args j).nums) :
    ((batchTable (set_condensed_mode c pers) args).getD i ⟨"", none, none⟩).power
      = ((batchTable (set_condensed_mode c pers) args).getD j ⟨"", none, none⟩).power ∧
    ((batchTable (set_condensed_mode c pers) args).getD i ⟨"", none, none⟩).python_error
      = ((batchTable (set_condensed_mode c pers) args).getD j ⟨"", none, none⟩).python_error ∧
    (condensedMemo (power_calc1 (set_condensed_mode c pers)) pers (runsOf args)).length
      = ((runsOf args).map (fun p => condensedKey pers p.nums)).dedup.length := by
  have hc : (set_condensed_mode c pers).condensed = some pers := rfl
  rw [batchTable_getD _ args i hi, batchTable_getD _ args j hj,
    rowVals_getElem_condensed _ pers hc (runsOf args) i
      (by rw [length_runsOf]; exact hi),
    rowVals_getElem_condensed _ pers hc (runsOf args) j
      (by rw [length_runsOf]; exact hj),
    runsOf_getD args i hi, runsOf_getD args j hj, hkey]
  exact ⟨rfl, rfl, by simp [condensedMemo]⟩

/-- Witness for C7: in the concrete batch, input 0.52 and input 0.50 round to
the same value at 1 decimal place and the two runs share one result. -/
theorem condensed_mode_one_calc_per_rounded_key_witness :
    0 < condArgs.n ∧ 1 < condArgs.n ∧
    condensedKey [1] (buildParams condArgs 0).nums
      = condensedKey [1] (buildParams condArgs 1).nums ∧
    (((batchTable (set_condensed_mode demoCalc [1]) condArgs).getD 0 ⟨"", none, none⟩).power
       = ((batchTable (set_condensed_mode demoCalc [1]) condArgs).getD 1 ⟨"", none, none⟩).power ∧
     ((batchTable (set_condensed_mode demoCalc [1]) condArgs).getD 0 ⟨"", none, none⟩).python_error
       = ((batchTable (set_condensed_mode demoCalc [1]) condArgs).getD 1 ⟨"", none, none⟩).python_error ∧
     (condensedMemo (power_calc1 (set_condensed_mode demoCalc [1])) [1] (runsOf condArgs)).length
       = ((runsOf condArgs).map (fun p => condensedKey [1] p.nums)).dedup.length) :=
  ⟨by decide, by decide, by
      norm_num [condensedKey, buildParams, condArgs, ParamVal.expand, roundTo,
        round_eq, List.getD],
    condensed_mode_one_calc_per_rounded_key demoCalc [1] condArgs 0 1
      (by decide) (by decide)
      (by norm_num [condensedKey, buildParams, condArgs, ParamVal.expand, roundTo,
            round_eq, List.getD])⟩

/-- C8: saving to file is optional — with `outpath = none` the batch only
returns the results table and writes no output file; the file is written
exactly when an output path is supplied. -/
theorem outpath_none_writes_no_file (c : Calculator) (args : BatchArgs)
    (f : String) (hok : argsOk args = true) :
    mulitprocess_power_calcs c none args = .ok (batchTable c args, []) ∧
    mulitprocess_power_calcs c (some f) args = .ok (batchTable c args, [f]) := by
  constructor <;> simp [mulitprocess_power_calcs, hok]

/-- Witness for C8 on the concrete two-run batch. -/
theorem outpath_none_writes_no_file_witness :
    argsOk demoArgs = true ∧
    (mulitprocess_power_calcs demoCalc none demoArgs
       = .ok (batchTable demoCalc demoArgs, []) ∧
     mulitprocess_power_calcs demoCalc (some "outfile.hdf") demoArgs
       = .ok (batchTable demoCalc demoArgs, ["outfile.hdf"])) :=
  ⟨by decide, outpath_none_writes_no_file demoCalc demoArgs "outfile.hdf" (by decide)⟩

/-- C9 counterexample: `time_test_power_calc_itter` is not determined by its
arguments alone — with identical arguments (`nsims = 1000`,
`testnitter = 5`) but the two different measured wall-clock times recorded
in the notebook's two timing cells, it returns different results, so "two
invocations of `time_test_power_calc_itter` with identical arguments produce
identical results" fails. -/
theorem time_test_not_determined_by_args :
    time_test_power_calc_itter 1000 5 (5 * recordedSlopePerIter)
      ≠ time_test_power_calc_itter 1000 5 (5 * recordedCounterPerIter) := by
  intro h
  have h1 := congrArg Prod.fst h
  simp only [time_test_power_calc_itter, recordedSlopePerIter,
    recordedCounterPerIter] at h1
  norm_num at h1

/-- C9 (amended): `mulitprocess_power_calcs` is deterministic under a fixed
seed — its results table is a function of the batch arguments (identifier,
parameter and seed values) and of the calculator's computation-relevant
configuration alone; in particular two invocations with identical arguments
agree even across different core counts.  The timing helper is excluded: its
output also depends on the measured wall-clock time, which is not an
argument. -/
theorem batch_deterministic_under_fixed_seed (c₁ c₂ : Calculator)
    (outpath : Option String) (args : BatchArgs)
    (h1 : c₁.nsims = c₂.nsims) (h2 : c₁.efficent_mode = c₂.efficent_mode)
    (h3 : c₁.condensed = c₂.condensed) (h4 : c₁.sim = c₂.sim)
    (h5 : c₁.true_ts_passes = c₂.true_ts_passes) :
    mulitprocess_power_calcs c₁ outpath args
      = mulitprocess_power_calcs c₂ outpath args := by
  cases c₁ with
  | mk n₁ k₁ e₁ co₁ s₁ t₁ =>
    cases c₂ with
    | mk n₂ k₂ e₂ co₂ s₂ t₂ =>
      dsimp only at h1 h2 h3 h4 h5
      subst h1; subst h2; subst h3; subst h4; subst h5
      rfl

/-- Witness for C9 (amended): the same batch on the same calculator with 3
and with 64 cores returns the same table. -/
theorem batch_deterministic_under_fixed_seed_witness :
    demoCalc.nsims = demoCalc64.nsims ∧
    demoCalc.efficent_mode = demoCalc64.efficent_mode ∧
    demoCalc.condensed = demoCalc64.condensed ∧
    demoCalc.sim = demoCalc64.sim ∧
    demoCalc.true_ts_passes = demoCalc64.true_ts_passes ∧
    mulitprocess_power_calcs demoCalc none demoArgs
      = mulitprocess_power_calcs demoCalc64 none demoArgs :=
  ⟨rfl, rfl, rfl, rfl, rfl,
    batch_deterministic_under_fixed_seed demoCalc demoCalc64 none demoArgs
      rfl rfl rfl rfl rfl⟩

/-- C10: in the notebook's error-inspection cell, the printed error count
`outdata['python_error'].notna().sum()` equals the number of
(identifier, error) pairs printed by the loop over the `~isna()`-masked
index and column: the `notna()` mask and the `~isna()` mask select exactly
the same rows. -/
theorem notna_count_matches_loop_pairs (idx : List String)
    (col : List (Option String)) (h : idx.length = col.length) :
    notnaSum col = (errorLoopPairs idx col).length := by
  have hm : col.length = (col.map (fun x => !(isna x))).length := by simp
  have h1 := maskSelect_length (col.map (fun x => !(isna x))) idx (h.trans hm)
  have h2 := maskSelect_length (col.map (fun x => !(isna x))) col hm
  have h3 := length_filter_map_bool (fun x : Option String => !(isna x)) col
  have h4 : col.filter notna = col.filter (fun x => !(isna x)) :=
    List.filter_congr (by intro x hx; cases x <;> rfl)
  simp only [errorLoopPairs, List.length_zip, h1, h2, h3, notnaSum, h4]
  omega

/-- Witness for C10 on the notebook's recorded 6-run table (one failed run). -/
theorem notna_count_matches_loop_pairs_witness :
    notebookIndex.length = notebookErrors.length ∧
    notnaSum notebookErrors = (errorLoopPairs notebookIndex notebookErrors).length :=
  ⟨rfl, notna_count_matches_loop_pairs notebookIndex notebookErrors rfl⟩

end GwDetect
